import Mathlib

/-!
Shallow embedding of the data-aggregation core of the crime-data dashboard
(`src/utils/data.py` and the context summarizer of `src/utils/chatbot.py`),
together with theorems settling the frozen claims about its specification.

A pandas `DataFrame` is modelled as a `Frame`: a list of column names and a
list of rows, each row a positional list of optional cells (`none` models
`NaN`).  Cell lookup pairs columns with cells positionally (`List.zip`) and
takes the first column of the requested name, mirroring label-based access.
Python floats that can carry `inf`/`nan` are modelled by `ERat`: an exact
rational together with the three IEEE special values, with the division-by-zero
behaviour of float arithmetic made explicit.  Functions that can raise
(`KeyError` on a missing column, reductions over empty arrays) return
`Except String _`.  In-place mutation of the argument frame
(`df['faits'] = ...` in the source) is made explicit by returning the final
state of the argument alongside the result.
-/

/-- A pandas cell value: a number or a string.  `Option Value` adds `NaN`. -/
inductive Value where
  | num (q : ℚ)
  | str (s : String)
deriving DecidableEq

/-- A Python float outcome: finite rational, `+inf`, `-inf`, or `nan`. -/
inductive ERat where
  | fin (q : ℚ)
  | pinf
  | ninf
  | nan
deriving DecidableEq

/-- The finite value of a float outcome (`0` for the special values), used
to sum percentage columns. -/
def pctOr0 : ERat → ℚ
  | .fin q => q
  | _ => 0

/-!
Mathlib's arithmetic on `ℚ` does not reduce definitionally (so `decide`
cannot evaluate it on concrete frames); `Rat.normalize`/`mkRat`, comparisons
and numerals do.  The embedding therefore computes with the following
executable rational operations, each proved equal to the corresponding
Mathlib operation in the theorem section below.
-/

/-- Executable rational addition (`= a + b`). -/
def qadd (a b : ℚ) : ℚ := mkRat (a.num * b.den + b.num * a.den) (a.den * b.den)

/-- Executable rational negation (`= -a`). -/
def qneg (a : ℚ) : ℚ := mkRat (-a.num) a.den

/-- Executable rational subtraction (`= a - b`). -/
def qsub (a b : ℚ) : ℚ := qadd a (qneg b)

/-- Executable rational multiplication (`= a * b`). -/
def qmul (a b : ℚ) : ℚ := mkRat (a.num * b.num) (a.den * b.den)

/-- Executable rational inverse (`= b⁻¹`). -/
def qinv (b : ℚ) : ℚ := mkRat (Int.sign b.num * b.den) b.num.natAbs

/-- Executable rational division (`= a / b`, with `a / 0 = 0`). -/
def qdiv (a b : ℚ) : ℚ := qmul a (qinv b)

/-- Executable list sum (`= l.sum`). -/
def qsum (l : List ℚ) : ℚ := l.foldr qadd 0

/-- Executable round-half-up to an integer (`= round q`). -/
def qround (q : ℚ) : ℤ := (2 * q.num + q.den) / (2 * (q.den : ℤ))

/-- Round to two decimal places (`Series.round(2)`; float round-half-even
differs only at exact midpoints, which the claims' tolerance absorbs). -/
def round2 (q : ℚ) : ℚ := mkRat (qround (qmul q 100)) 100

instance {ε α : Type} [DecidableEq ε] [DecidableEq α] : DecidableEq (Except ε α)
  | .ok a, .ok b =>
    if h : a = b then .isTrue (by rw [h]) else .isFalse (by intro hh; cases hh; exact h rfl)
  | .error a, .error b =>
    if h : a = b then .isTrue (by rw [h]) else .isFalse (by intro hh; cases hh; exact h rfl)
  | .ok _, .error _ => .isFalse (by intro h; cases h)
  | .error _, .ok _ => .isFalse (by intro h; cases h)

/-- A DataFrame: column labels plus rows of positional optional cells. -/
structure Frame where
  cols : List String
  rows : List (List (Option Value))
deriving DecidableEq

/-- Label-based cell access: the cell paired with the first column named `c`
(`none` when the column is absent or the stored cell is `NaN`). -/
def cellV (cols : List String) (r : List (Option Value)) (c : String) : Option Value :=
  match (cols.zip r).find? (fun p => p.1 == c) with
  | some p => p.2
  | none => none

/-- Numeric view of a cell with `NaN`/non-numeric skipped as `0`
(pandas sums use `skipna=True`). -/
def numOr0 : Option Value → ℚ
  | some (.num q) => q
  | _ => 0

/-- Python truthiness of an `Optional[str]` parameter: `None` and `""` are falsy. -/
def truthyS : Option String → Bool
  | none => false
  | some s => s ≠ ""

/-- Python truthiness of an `Optional[int]` parameter: `None` and `0` are falsy. -/
def truthyI : Option Int → Bool
  | none => false
  | some y => y ≠ 0

/-- `str.isdigit`: non-empty and all characters are digits. -/
def isDigitName (s : String) : Bool :=
  s ≠ "" && s.toList.all Char.isDigit

/-- Substring test, used for `'mois' in col.lower()`. -/
def strContains (s pat : String) : Bool :=
  go s.toList pat.toList
where
  starts : List Char → List Char → Bool
    | _, [] => true
    | [], _ :: _ => false
    | c :: cs, p :: ps => c == p && starts cs ps
  go : List Char → List Char → Bool
    | [], p => p.isEmpty
    | c :: cs, p => starts (c :: cs) p || go cs p

/-- `str.lower` restricted to ASCII (column names here are ASCII). -/
def lowerStr (s : String) : String := String.mk (s.toList.map Char.toLower)

/-- The month/period columns scanned by the count-column fallback:
`col.isdigit() or 'mois' in col.lower()`. -/
def isMonthCol (c : String) : Bool :=
  isDigitName c || strContains (lowerStr c) "mois"

/-- Row-wise sum over the month columns (`df[month_cols].sum(axis=1)`,
`NaN` skipped). -/
def monthRowSum (cols : List String) (r : List (Option Value)) : ℚ :=
  qsum (((cols.zip r).filter (fun p => isMonthCol p.1)).map (fun p => numOr0 p.2))

/-- Count-column resolution (§4.2), inlined in every aggregation entry point:
if `'faits'` is absent, synthesize it from month columns or default it to `1`.
The source performs this as in-place mutation `df['faits'] = ...`; here the
updated frame is returned. -/
def resolveFaits (df : Frame) : Frame :=
  if "faits" ∈ df.cols then df
  else if df.cols.any isMonthCol then
    ⟨df.cols ++ ["faits"], df.rows.map (fun r => r ++ [some (.num (monthRowSum df.cols r))])⟩
  else
    ⟨df.cols ++ ["faits"], df.rows.map (fun r => r ++ [some (.num 1)])⟩

/-- Boolean-mask filtering `df[df[c] == v]` (a `NaN` cell never matches). -/
def filterEq (df : Frame) (c : String) (v : Value) : Frame :=
  ⟨df.cols, df.rows.filter (fun r => cellV df.cols r c = some v)⟩

/-- Ascending order used by `groupby(sort=True)` on keys (numbers by value,
strings byte-wise; numbers before strings). -/
def vleB : Value → Value → Bool
  | .num p, .num q => decide (p ≤ q)
  | .str s, .str t => (compare s t).isLE
  | .num _, .str _ => true
  | .str _, .num _ => false

/-- Lexicographic order on pair keys for two-column `groupby`. -/
def vpleB : Value × Value → Value × Value → Bool
  | (a₁, b₁), (a₂, b₂) =>
    if a₁ = a₂ then vleB b₁ b₂ else vleB a₁ a₂

/-- The distinct non-`NaN` values of column `c`, in ascending key order
(`groupby(c, sort=True, dropna=True)` group keys). -/
def keyVals (df : Frame) (c : String) : List Value :=
  List.insertionSort (fun a b => vleB a b = true)
    ((df.rows.filterMap (fun r => cellV df.cols r c)).dedup)

/-- The `(code_dept, departement)` grouping key of a row; `none` when either
component is `NaN` (such rows are dropped by `groupby`). -/
def pairKey (cols : List String) (r : List (Option Value)) : Option (Value × Value) :=
  match cellV cols r "code_dept", cellV cols r "departement" with
  | some a, some b => some (a, b)
  | _, _ => none

/-- The distinct `(code_dept, departement)` keys, ascending
(`groupby(['code_dept','departement'], sort=True, dropna=True)`). -/
def pairKeys (df : Frame) : List (Value × Value) :=
  List.insertionSort (fun a b => vpleB a b = true)
    ((df.rows.filterMap (fun r => pairKey df.cols r)).dedup)

/-- Sum of `'faits'` over the rows of the group keyed by `k` (pair key). -/
def groupFaitsSum (df : Frame) (k : Value × Value) : ℚ :=
  qsum ((df.rows.filter (fun r => pairKey df.cols r = some k)).map
    (fun r => numOr0 (cellV df.cols r "faits")))

/-- Sum of `'faits'` over the rows whose column `c` holds key `k`. -/
def groupFaitsSum1 (df : Frame) (c : String) (k : Value) : ℚ :=
  qsum ((df.rows.filter (fun r => cellV df.cols r c = some k)).map
    (fun r => numOr0 (cellV df.cols r "faits")))

/-- `agg({'annee': 'count'})`: non-`NaN` `annee` cells in the group. -/
def groupAnneeCount (df : Frame) (k : Value × Value) : ℕ :=
  ((df.rows.filter (fun r => pairKey df.cols r = some k)).filter
    (fun r => (cellV df.cols r "annee").isSome)).length

/-- Sum of the whole `'faits'` column (`df['faits'].sum()`, `NaN` skipped). -/
def faitsColSum (df : Frame) : ℚ :=
  qsum (df.rows.map (fun r => numOr0 (cellV df.cols r "faits")))

/-- Result row of `get_department_stats`
(`code_dept, departement, total_faits, nb_enregistrements`). -/
structure StatRow where
  code_dept : Value
  departement : Value
  total_faits : ℚ
  nb_enregistrements : ℕ
deriving DecidableEq

/-- Result row of `get_temporal_evolution` (`annee, total_faits, evolution_pct`). -/
structure EvoRow where
  annee : Value
  total_faits : ℚ
  evolution_pct : ERat
deriving DecidableEq

/-- Result row of `get_crime_types_distribution` (`type_crime, total, pourcentage`). -/
structure DistRow where
  type_crime : Value
  total : ℚ
  pourcentage : ERat
deriving DecidableEq

/-- Result row of `get_top_departments` (`code_dept, departement, total_faits`). -/
structure TopRow where
  code_dept : Value
  departement : Value
  total_faits : ℚ
deriving DecidableEq

/-- Descending order on department statistics (`sort_values('total_faits',
ascending=False)`). -/
def statDesc (a b : StatRow) : Prop := b.total_faits ≤ a.total_faits

instance : DecidableRel statDesc := fun a b =>
  inferInstanceAs (Decidable (b.total_faits ≤ a.total_faits))

instance : IsTotal StatRow statDesc := ⟨fun a b => le_total b.total_faits a.total_faits⟩

instance : IsTrans StatRow statDesc := ⟨fun _ _ _ h₁ h₂ => le_trans h₂ h₁⟩

/-- Descending order on distribution rows (`sort_values('total', ascending=False)`). -/
def distDesc (a b : DistRow) : Prop := b.total ≤ a.total

instance : DecidableRel distDesc := fun a b =>
  inferInstanceAs (Decidable (b.total ≤ a.total))

instance : IsTotal DistRow distDesc := ⟨fun a b => le_total b.total a.total⟩

instance : IsTrans DistRow distDesc := ⟨fun _ _ _ h₁ h₂ => le_trans h₂ h₁⟩

/-- Descending order on top-department rows (`sort_values('faits', ascending=False)`). -/
def topDesc (a b : TopRow) : Prop := b.total_faits ≤ a.total_faits

instance : DecidableRel topDesc := fun a b =>
  inferInstanceAs (Decidable (b.total_faits ≤ a.total_faits))

instance : IsTotal TopRow topDesc := ⟨fun a b => le_total b.total_faits a.total_faits⟩

instance : IsTrans TopRow topDesc := ⟨fun _ _ _ h₁ h₂ => le_trans h₂ h₁⟩

/-- The grouped, aggregated and descending-sorted statistics of
`get_department_stats` (group by `(code_dept, departement)`, `faits: sum`,
`annee: count`, `sort_values('total_faits', ascending=False)`). -/
def statSorted (df' : Frame) : List StatRow :=
  List.insertionSort statDesc
    ((pairKeys df').map (fun k => ⟨k.1, k.2, groupFaitsSum df' k, groupAnneeCount df' k⟩))

/-- `DataLoader.get_department_stats`: resolve the count column (mutating the
argument in place when it is absent), then group, aggregate and sort.  The
first component is the final state of the argument frame; `groupby`/`agg` on
a missing column raises (`Except.error`). -/
def get_department_stats (df : Frame) : Frame × Except String (List StatRow) :=
  let df' := resolveFaits df
  (df',
    if "code_dept" ∈ df'.cols then
      if "departement" ∈ df'.cols then
        if "annee" ∈ df'.cols then
          .ok (statSorted df')
        else .error "KeyError: annee"
      else .error "KeyError: departement"
    else .error "KeyError: code_dept")

/-- `Series.pct_change() * 100` on consecutive yearly totals, with IEEE float
division semantics: a zero previous total yields `±inf` (or `nan` for `0/0`),
and the first period has no predecessor (`nan`). -/
def pctOf (prev : Option ℚ) (t : ℚ) : ERat :=
  match prev with
  | none => .nan
  | some p =>
    if p = 0 then
      if 0 < t then .pinf else if t < 0 then .ninf else .nan
    else .fin (qmul (qsub (qdiv t p) 1) 100)

/-- Attach `evolution_pct` to the (year, total) sequence, carrying the
previous total. -/
def withPct : Option ℚ → List (Value × ℚ) → List EvoRow
  | _, [] => []
  | prev, (k, t) :: rest => ⟨k, t, pctOf prev t⟩ :: withPct (some t) rest

/-- Group totals by year, ascending (`groupby('annee')['faits'].sum()`). -/
def evoCore (df : Frame) : Except String (List EvoRow) :=
  if "annee" ∈ df.cols then
    .ok (withPct none ((keyVals df "annee").map (fun k => (k, groupFaitsSum1 df "annee" k))))
  else .error "KeyError: annee"

/-- `DataLoader.get_temporal_evolution`: optional truthy `dept_code` filter
(applied before count resolution, raising if `code_dept` is absent), then
count resolution and the yearly evolution.  Without a filter the count
resolution mutates the argument frame itself; with a filter it acts on the
filtered copy. -/
def get_temporal_evolution (df : Frame) (dept_code : Option String) :
    Frame × Except String (List EvoRow) :=
  if truthyS dept_code then
    if "code_dept" ∈ df.cols then
      (df, evoCore (resolveFaits (filterEq df "code_dept" (.str (dept_code.getD "")))))
    else (df, .error "KeyError: code_dept")
  else
    let df' := resolveFaits df
    (df', evoCore df')

/-- The truthy filters of `get_crime_types_distribution` applied to the copy
of the input (`filtered_df = df.copy()`; `filtered_df[... == dept_code]`;
`filtered_df[... == year]`). -/
def applyFilters (df : Frame) (dept_code : Option String) (year : Option Int) :
    Except String Frame :=
  match (if truthyS dept_code then
      if "code_dept" ∈ df.cols then .ok (filterEq df "code_dept" (.str (dept_code.getD "")))
      else .error "KeyError: code_dept"
    else .ok df : Except String Frame) with
  | .error e => .error e
  | .ok f1 =>
    if truthyI year then
      if "annee" ∈ f1.cols then .ok (filterEq f1 "annee" (.num ((year.getD 0 : Int) : ℚ)))
      else .error "KeyError: annee"
    else .ok f1

/-- The frame the filters of `get_crime_types_distribution` produce on their
success path. -/
def filteredPure (df : Frame) (dept_code : Option String) (year : Option Int) : Frame :=
  let f1 := if truthyS dept_code then filterEq df "code_dept" (.str (dept_code.getD "")) else df
  if truthyI year then filterEq f1 "annee" (.num ((year.getD 0 : Int) : ℚ)) else f1

/-- Percentage of one category: `total / sum(total) * 100`, rounded to two
decimals, with float division semantics when the overall sum is zero. -/
def mkPct (t S : ℚ) : ERat :=
  if S = 0 then
    if 0 < t then .pinf else if t < 0 then .ninf else .nan
  else .fin (round2 (qmul (qdiv t S) 100))

/-- The per-category `(key, total)` pairs of the distribution
(`groupby('classe')['faits'].sum()`). -/
def distGroups (f3 : Frame) : List (Value × ℚ) :=
  (keyVals f3 "classe").map (fun k => (k, groupFaitsSum1 f3 "classe" k))

/-- The distribution rows: percentages against the grand total
(`distribution['total'].sum()`), sorted descending by total. -/
def distSorted (f3 : Frame) : List DistRow :=
  List.insertionSort distDesc
    ((distGroups f3).map (fun g => ⟨g.1, g.2, mkPct g.2 (qsum ((distGroups f3).map (fun g => g.2)))⟩))

/-- `DataLoader.get_crime_types_distribution`: filter the copy, resolve the
count column on the copy, group by `classe`, sort descending by total, attach
percentages.  The input frame is never mutated (first component is `df`). -/
def get_crime_types_distribution (df : Frame) (dept_code : Option String)
    (year : Option Int) : Frame × Except String (List DistRow) :=
  (df,
    match applyFilters df dept_code year with
    | .error e => .error e
    | .ok f2 =>
      if "classe" ∈ (resolveFaits f2).cols then .ok (distSorted (resolveFaits f2))
      else .error "KeyError: classe")

/-- The fully sorted territory ranking of `get_top_departments`, before
`head(n)`: optional truthy year filter on the copy, count resolution on the
copy, group by `(code_dept, departement)`, sum, sort descending. -/
def topSorted (df : Frame) (year : Option Int) : Except String (List TopRow) :=
  match (if truthyI year then
      if "annee" ∈ df.cols then .ok (filterEq df "annee" (.num ((year.getD 0 : Int) : ℚ)))
      else .error "KeyError: annee"
    else .ok df : Except String Frame) with
  | .error e => .error e
  | .ok f1 =>
    if "code_dept" ∈ (resolveFaits f1).cols then
      if "departement" ∈ (resolveFaits f1).cols then
        .ok (List.insertionSort topDesc
          ((pairKeys (resolveFaits f1)).map (fun k => ⟨k.1, k.2, groupFaitsSum (resolveFaits f1) k⟩)))
      else .error "KeyError: departement"
    else .error "KeyError: code_dept"

/-- `DataLoader.get_top_departments`: the sorted ranking truncated by
`head(n)`.  Works on a copy; the input frame is never mutated. -/
def get_top_departments (df : Frame) (n : ℕ) (year : Option Int) :
    Frame × Except String (List TopRow) :=
  (df, (topSorted df year).map (fun l => l.take n))

/-- `calculate_crime_rate`: rate per 1000 inhabitants with an explicit zero
sentinel for a zero population. -/
def calculate_crime_rate (total_crimes population : Int) : ℚ :=
  if population = 0 then 0
  else qmul (qdiv (total_crimes : ℚ) (population : ℚ)) 1000

/-- The column-rename table of `_clean_crime_data`. -/
def column_mapping : List (String × String) :=
  [("Code département", "code_dept"), ("Département", "departement"),
   ("Code service", "code_service"), ("Service", "service"),
   ("Unité de compte", "unite"), ("Classe", "classe"), ("classe", "classe"),
   ("Index", "index"), ("Millésime", "annee"), ("annee", "annee")]

/-- Rename one column label (`df.rename(columns=...)` restricted to present
keys is this map applied to every label). -/
def canonicalize (s : String) : String :=
  match column_mapping.find? (fun p => p.1 == s) with
  | some p => p.2
  | none => s

/-- Digit-string to number, or `none` when any character is not a digit. -/
def digitsToNat : List Char → Option ℕ
  | [] => some 0
  | c :: cs =>
    if c.isDigit then
      (digitsToNat cs).map (fun n => (c.toNat - 48) * 10 ^ cs.length + n)
    else none

/-- Integer-literal parsing (the year strings of this dataset). -/
def parseIntStr (s : String) : Option Int :=
  match s.toList with
  | [] => none
  | '-' :: ds => if ds.isEmpty then none else (digitsToNat ds).map (fun n => -(n : Int))
  | ds => (digitsToNat ds).map (fun n => (n : Int))

/-- `pd.to_numeric(cell, errors='coerce')`: numbers pass through, strings are
parsed (integer literals here; unparseable becomes `NaN`), `NaN` stays `NaN`. -/
def toNumCell : Option Value → Option Value
  | some (.num q) => some (.num q)
  | some (.str s) => (parseIntStr s).map (fun i => .num (i : ℚ))
  | none => none

/-- Apply `to_numeric` to every cell in an `annee`-labelled position. -/
def toNumRow (cols : List String) (r : List (Option Value)) : List (Option Value) :=
  (cols.zip r).map (fun p => if p.1 == "annee" then toNumCell p.2 else p.2)

/-- The critical columns whose missing values drop a row, restricted to
columns present in the frame. -/
def critCols (cols : List String) : List String :=
  (["code_dept", "annee", "classe"].filter (fun c => c ∈ cols))

/-- A row survives `dropna(subset=critical_cols)`. -/
def goodRow (cols : List String) (r : List (Option Value)) : Bool :=
  (critCols cols).all (fun c => (cellV cols r c).isSome)

/-- `DataLoader._clean_crime_data`: rename known aliases, coerce `annee` to
numeric, drop rows missing a present critical column.  `pd.to_numeric` on a
duplicated `annee` label raises, hence the `Except`. -/
def clean_crime_data (df : Frame) : Except String Frame :=
  let c' := df.cols.map canonicalize
  if 2 ≤ c'.count "annee" then .error "TypeError: to_numeric on duplicated annee columns"
  else
    let rows1 := if "annee" ∈ c' then df.rows.map (toNumRow c') else df.rows
    .ok ⟨c', rows1.filter (goodRow c')⟩

/-- The already-canonical frames of the idempotence claim: canonical column
labels, an unambiguous `annee` label, rows aligned with numeric year cells,
and no row missing a present critical field. -/
def isCanonical (T : Frame) : Prop :=
  T.cols.map canonicalize = T.cols ∧ T.cols.count "annee" < 2 ∧
    ∀ r ∈ T.rows, toNumRow T.cols r = r ∧ goodRow T.cols r

instance (T : Frame) : Decidable (isCanonical T) := by
  unfold isCanonical; infer_instance

/-- `f"{x:.0f}"` on an exact rational (round to integer; years and totals in
the digest are integral, where float round-half-even agrees). -/
def fmt0f (q : ℚ) : String := toString (qround q)

/-- Insert a thousands separator every three digits of a reversed digit list. -/
def commaAux : ℕ → List Char → List Char
  | _, [] => []
  | 0, c :: cs => ',' :: c :: commaAux 2 cs
  | k + 1, c :: cs => c :: commaAux k cs

/-- `f"{n:,}"`-style thousands grouping of an integer. -/
def commaFmt (n : Int) : String :=
  (if n < 0 then "-" else "") ++
    String.mk ((commaAux 3 (toString n.natAbs).toList.reverse).reverse)

/-- `f"{x:,.0f}"`: round to integer then group thousands. -/
def fmtComma0f (q : ℚ) : String := commaFmt (qround q)

/-- Distinct values of a column including `NaN` (`Series.unique()`). -/
def uniqueVals (df : Frame) (c : String) : List (Option Value) :=
  (df.rows.map (fun r => cellV df.cols r c)).dedup

/-- Distinct non-`NaN` values of a column (`Series.nunique()`). -/
def nuniqueVal (df : Frame) (c : String) : ℕ :=
  ((df.rows.filterMap (fun r => cellV df.cols r c)).dedup).length

/-- The period fragment of the digest: `unique()` then `ndarray.min()` /
`.max()`, which raises on a zero-size array; a `NaN` year poisons the
reduction to `nan`, and a string year breaks the `:.0f` format. -/
def periodFragment (df : Frame) : Except String (List String) :=
  if "annee" ∈ df.cols then
    let ys := uniqueVals df "annee"
    match ys with
    | [] => .error "ValueError: zero-size array to reduction operation minimum which has no identity"
    | _ :: _ =>
      if ys.any (fun v => match v with | some (.str _) => true | _ => false) then
        .error "TypeError: unsupported format string passed to str"
      else if ys.any (fun v => v.isNone) then
        .ok ["Période: nan - nan"]
      else
        match ys.filterMap (fun v => match v with | some (.num q) => some q | _ => none) with
        | [] => .error "ValueError: empty reduction"
        | q :: qs =>
          .ok ["Période: " ++ fmt0f (qs.foldl min q) ++ " - " ++ fmt0f (qs.foldl max q)]
  else .ok []

/-- Total of the digit-named columns (`df[month_cols].sum().sum()`). -/
def digitColsTotal (df : Frame) : ℚ :=
  qsum (df.rows.map (fun r =>
    qsum (((df.cols.zip r).filter (fun p => isDigitName p.1)).map (fun p => numOr0 p.2))))

/-- `get_data_summary` (`src/utils/chatbot.py`): pipe-joined digest of period
span, distinct-department count, total count, and distinct-category count;
fragments with an absent source column are omitted. -/
def get_data_summary (df : Frame) : Except String String :=
  match periodFragment df with
  | .error e => .error e
  | .ok f1 =>
    let f2 := if "code_dept" ∈ df.cols then ["Départements: " ++ toString (nuniqueVal df "code_dept")] else []
    let f3 :=
      if "faits" ∈ df.cols then ["Total des faits: " ++ fmtComma0f (faitsColSum df)]
      else if df.cols.any isDigitName then ["Total des faits: " ++ fmtComma0f (digitColsTotal df)]
      else []
    let f4 := if "classe" ∈ df.cols then ["Types de crimes: " ++ toString (nuniqueVal df "classe")] else []
    .ok (String.intercalate " | " (f1 ++ f2 ++ f3 ++ f4))

/-!
Concrete frames used by the per-claim witnesses and counterexamples.
-/

/-- Shorthand: a present string cell. -/
def vs (s : String) : Option Value := some (.str s)

/-- Shorthand: a present numeric cell. -/
def vn (q : ℚ) : Option Value := some (.num q)

/-- A frame without a count column (count synthesis mutates it in place). -/
def c1frame : Frame :=
  ⟨["code_dept", "departement", "annee"], [[vs "75", vs "Paris", vn 2020]]⟩

/-- A frame that already has its count column. -/
def c1wframe : Frame :=
  ⟨["code_dept", "departement", "annee", "faits"], [[vs "75", vs "Paris", vn 2020, vn 3]]⟩

/-- The spec's zero-count-prior-year scenario. -/
def c2frame : Frame :=
  ⟨["code_dept", "departement", "annee", "classe", "faits"],
   [[vs "13", vs "X", vn 2020, vs "A", vn 0],
    [vs "13", vs "X", vn 2021, vs "A", vn 50]]⟩

/-- A frame lacking the territory-name column. -/
def c3frame : Frame := ⟨["code_dept"], [[vs "75"]]⟩

/-- A frame with all columns the aggregations group on. -/
def c3wframe : Frame :=
  ⟨["code_dept", "departement", "annee", "classe"],
   [[vs "75", vs "Paris", vn 2020, vs "Vols"]]⟩

/-- The spec's two-category distribution scenario. -/
def c4frame : Frame := ⟨["classe", "faits"], [[vs "A", vn 30], [vs "B", vn 70]]⟩

/-- A non-empty frame whose total count is zero. -/
def c4zframe : Frame := ⟨["classe", "faits"], [[vs "A", vn 0]]⟩

/-- An empty frame that still has the category column. -/
def c4eframe : Frame := ⟨["classe"], []⟩

/-- A frame with a missing (`NaN`) territory name on one row. -/
def c5frame : Frame :=
  ⟨["code_dept", "departement", "annee", "faits"],
   [[vs "75", vs "Paris", vn 2020, vn 10],
    [vs "75", none, vn 2020, vn 5]]⟩

/-- A frame whose rows all carry complete grouping keys. -/
def c5wframe : Frame :=
  ⟨["code_dept", "departement", "annee", "faits"],
   [[vs "75", vs "Paris", vn 2020, vn 10],
    [vs "13", vs "Mars", vn 2020, vn 5],
    [vs "75", vs "Paris", vn 2021, vn 2]]⟩

/-- Three territories for the top-N truncation claim. -/
def c6frame : Frame :=
  ⟨["code_dept", "departement", "faits"],
   [[vs "75", vs "Paris", vn 5], [vs "13", vs "Mars", vn 9], [vs "69", vs "Lyon", vn 7]]⟩

/-- An already-canonical frame. -/
def c8frame : Frame :=
  ⟨["code_dept", "departement", "annee", "classe", "faits"],
   [[vs "75", vs "Paris", vn 2020, vs "Vols", vn 3]]⟩

/-- A raw frame with source aliases, a string year, and a missing year. -/
def c8raw : Frame :=
  ⟨["Code département", "Département", "Millésime", "Classe", "faits"],
   [[vs "75", vs "Paris", vs "2020", vs "Vols", vn 3],
    [vs "75", vs "Paris", none, vs "Vols", vn 4]]⟩

/-!
Theorems.  First the characterizations of the executable rational kernel in
terms of Mathlib's field operations on `ℚ`, then shared list lemmas, then
one theorem (with witness or counterexample) per claim.
-/

theorem qadd_eq (a b : ℚ) : qadd a b = a + b := by
  unfold qadd
  rw [Rat.mkRat_eq_div]
  push_cast
  conv_rhs => rw [← Rat.num_div_den a, ← Rat.num_div_den b,
    div_add_div _ _ (by exact_mod_cast a.den_nz) (by exact_mod_cast b.den_nz)]
  ring_nf

theorem qneg_eq (a : ℚ) : qneg a = -a := by
  unfold qneg
  rw [Rat.mkRat_eq_div]
  push_cast
  rw [neg_div, Rat.num_div_den]

theorem qsub_eq (a b : ℚ) : qsub a b = a - b := by
  rw [qsub, qadd_eq, qneg_eq, sub_eq_add_neg]

theorem qmul_eq (a b : ℚ) : qmul a b = a * b := by
  unfold qmul
  rw [Rat.mkRat_eq_div]
  push_cast
  conv_rhs => rw [← Rat.num_div_den a, ← Rat.num_div_den b, div_mul_div_comm]

theorem qinv_eq (b : ℚ) : qinv b = b⁻¹ := by
  unfold qinv
  rcases lt_trichotomy b.num 0 with h | h | h
  · rw [Rat.mkRat_eq_div, Rat.inv_def', Rat.divInt_eq_div, Int.sign_eq_neg_one_of_neg h]
    push_cast [Int.cast_natAbs]
    rw [abs_of_neg (by exact_mod_cast h : (b.num : ℚ) < 0)]
    rw [div_neg, ← neg_div]
    ring_nf
  · have hb : b = 0 := by rwa [← Rat.num_eq_zero]
    subst hb
    simp
  · rw [Rat.mkRat_eq_div, Rat.inv_def', Rat.divInt_eq_div, Int.sign_eq_one_of_pos h]
    push_cast [Int.cast_natAbs]
    rw [abs_of_pos (by exact_mod_cast h : (0:ℚ) < (b.num : ℚ))]
    rw [one_mul]

theorem qdiv_eq (a b : ℚ) : qdiv a b = a / b := by
  rw [qdiv, qmul_eq, qinv_eq, div_eq_mul_inv]

theorem qsum_eq (l : List ℚ) : qsum l = l.sum := by
  induction l with
  | nil => rfl
  | cons a t ih =>
    show qadd a (qsum t) = a + t.sum
    rw [qadd_eq, ih]

theorem round_div_aux (n : ℤ) (d : ℕ) (hd : d ≠ 0) :
    (2 * n + d) / (2 * (d : ℤ)) = ⌊((n : ℚ)) / d + 1/2⌋ := by
  have hden : ((d : ℚ)) ≠ 0 := by exact_mod_cast hd
  have h : (n : ℚ)/d + 1/2 = (((2 * n + d : ℤ) : ℚ)) / ((2 * d : ℕ) : ℚ) := by
    push_cast
    rw [div_add_div _ _ hden two_ne_zero,
      div_eq_div_iff (by exact mul_ne_zero hden two_ne_zero)
        (by exact mul_ne_zero two_ne_zero hden)]
    ring
  rw [h, Rat.floor_intCast_div_natCast]
  norm_cast

theorem qround_eq (q : ℚ) : qround q = round q := by
  rw [round_eq]
  have h := round_div_aux q.num q.den q.den_nz
  rw [Rat.num_div_den] at h
  unfold qround
  exact h

theorem round2_eq (q : ℚ) : round2 q = ((round (q * 100) : ℤ) : ℚ) / 100 := by
  unfold round2
  rw [Rat.mkRat_eq_div, qround_eq, qmul_eq]
  norm_num

/-- Rounding to two decimals moves a rational by at most `1/200`. -/
theorem round2_err (q : ℚ) : |round2 q - q| ≤ 1/200 := by
  rw [round2_eq]
  have h := abs_sub_round (q * 100)
  have h100 : ((round (q * 100) : ℤ) : ℚ) / 100 - q =
      -((q * 100 - ((round (q * 100) : ℤ) : ℚ)) / 100) := by ring
  rw [h100, abs_neg, abs_div, show |(100:ℚ)| = 100 by norm_num]
  rw [div_le_iff₀ (by norm_num : (0:ℚ) < 100)]
  calc |q * 100 - ((round (q * 100) : ℤ) : ℚ)| ≤ 1/2 := h
    _ = 1/200 * 100 := by norm_num

/-- Splitting a mapped sum along a Boolean predicate. -/
theorem sum_filter_split {α : Type} (p : α → Bool) (f : α → ℚ) (l : List α) :
    ((l.filter p).map f).sum + ((l.filter (fun a => !p a)).map f).sum = (l.map f).sum := by
  induction l with
  | nil => simp
  | cons a t ih =>
    cases hpa : p a with
    | true =>
      simp only [List.filter_cons, hpa, Bool.not_true, if_true, if_false,
        Bool.false_eq_true, List.map_cons, List.sum_cons, ← ih]
      ring
    | false =>
      simp only [List.filter_cons, hpa, Bool.not_false, if_true, if_false,
        Bool.false_eq_true, List.map_cons, List.sum_cons, ← ih]
      ring

/-- Grouping partitions a mapped sum: summing the per-group sums over a
duplicate-free list of keys covering every element recovers the total sum. -/
theorem sum_partition {α β : Type} [DecidableEq β] (key : α → Option β) (f : α → ℚ) :
    ∀ (ks : List β) (l : List α), ks.Nodup →
      (∀ a ∈ l, ∃ k, key a = some k ∧ k ∈ ks) →
      (ks.map (fun k => ((l.filter (fun a => key a = some k)).map f).sum)).sum = (l.map f).sum
  | [], l, _, hall => by
    cases l with
    | nil => simp
    | cons a t =>
      obtain ⟨k, _, hk⟩ := hall a (List.mem_cons_self a t)
      exact absurd hk (List.not_mem_nil k)
  | k :: ks, l, hnd, hall => by
    have hknotin : k ∉ ks := (List.nodup_cons.mp hnd).1
    have hndks : ks.Nodup := (List.nodup_cons.mp hnd).2
    have hrest : ∀ a ∈ l.filter (fun a => !(key a = some k : Bool)), ∃ k', key a = some k' ∧ k' ∈ ks := by
      intro a ha
      have hmem := List.mem_of_mem_filter ha
      have hne : ¬ (key a = some k) := by
        have h2 := (List.mem_filter.mp ha).2
        simpa using h2
      obtain ⟨k', hk', hkmem⟩ := hall a hmem
      rcases List.mem_cons.mp hkmem with h | h
      · exact absurd (h ▸ hk') hne
      · exact ⟨k', hk', h⟩
    have ih := sum_partition key f ks (l.filter (fun a => !(key a = some k : Bool))) hndks hrest
    have hcomm : ∀ k' ∈ ks,
        ((l.filter (fun a => !(key a = some k : Bool))).filter (fun a => key a = some k')).map f
          = (l.filter (fun a => key a = some k')).map f := by
      intro k' hk'
      congr 1
      rw [List.filter_filter]
      apply List.filter_congr
      intro a _
      by_cases h : key a = some k'
      · have hkk : ¬ k' = k := fun he => hknotin (he ▸ hk')
        have hnk : ¬ key a = some k := by
          intro hh
          rw [h] at hh
          exact hkk (Option.some.inj hh)
        simp [h, hnk, hkk]
      · simp [h]
    rw [List.map_cons, List.sum_cons]
    have hmapeq : ks.map (fun k' => ((l.filter (fun a => key a = some k')).map f).sum)
        = ks.map (fun k' => (((l.filter (fun a => !(key a = some k : Bool))).filter
            (fun a => key a = some k')).map f).sum) := by
      apply List.map_congr_left
      intro k' hk'
      rw [hcomm k' hk']
    rw [hmapeq, ih, ← sum_filter_split (fun a => key a = some k) f l]

/-- Per-element rounding to two decimals moves a mapped sum by at most
`1/200` per element. -/
theorem round_sum_bound (S : ℚ) (l : List ℚ) :
    |(l.map (fun t => round2 (t / S * 100))).sum - l.sum / S * 100| ≤ l.length * (1/200) := by
  induction l with
  | nil => simp
  | cons t l ih =>
    have h1 := round2_err (t / S * 100)
    have hsplit : (List.map (fun t => round2 (t / S * 100)) (t :: l)).sum - (t :: l).sum / S * 100
        = (round2 (t / S * 100) - t / S * 100)
          + ((l.map (fun t => round2 (t / S * 100))).sum - l.sum / S * 100) := by
      simp only [List.map_cons, List.sum_cons]
      ring
    rw [hsplit]
    calc |(round2 (t / S * 100) - t / S * 100)
          + ((l.map (fun t => round2 (t / S * 100))).sum - l.sum / S * 100)|
        ≤ |round2 (t / S * 100) - t / S * 100|
          + |(l.map (fun t => round2 (t / S * 100))).sum - l.sum / S * 100| := abs_add _ _
      _ ≤ 1/200 + l.length * (1/200) := add_le_add h1 ih
      _ = (t :: l).length * (1/200) := by
          simp only [List.length_cons]
          push_cast
          ring

/-- Count-column resolution only appends a column, so membership is
preserved. -/
theorem mem_resolveFaits (df : Frame) (c : String) (h : c ∈ df.cols) :
    c ∈ (resolveFaits df).cols := by
  by_cases hf : "faits" ∈ df.cols
  · rw [resolveFaits, if_pos hf]; exact h
  · rw [resolveFaits, if_neg hf]
    by_cases hm : df.cols.any isMonthCol = true
    · rw [if_pos hm]; exact List.mem_append_left _ h
    · rw [if_neg hm]; exact List.mem_append_left _ h

/-- Count-column resolution of a frame with no rows yields no rows. -/
theorem resolveFaits_rows_nil (df : Frame) (h : df.rows = []) :
    (resolveFaits df).rows = [] := by
  by_cases hf : "faits" ∈ df.cols
  · rw [resolveFaits, if_pos hf]; exact h
  · rw [resolveFaits, if_neg hf]
    by_cases hm : df.cols.any isMonthCol = true
    · rw [if_pos hm]; simp [h]
    · rw [if_neg hm]; simp [h]

/-- A frame already carrying its count column is untouched by resolution. -/
theorem resolveFaits_eq_self (df : Frame) (h : "faits" ∈ df.cols) :
    resolveFaits df = df := by
  rw [resolveFaits, if_pos h]

/-- The truthy filters preserve the column list and succeed whenever the
columns they read are present. -/
theorem applyFilters_ok (df : Frame) (dc : Option String) (y : Option Int)
    (hdc : truthyS dc = true → "code_dept" ∈ df.cols)
    (hy : truthyI y = true → "annee" ∈ df.cols) :
    applyFilters df dc y = .ok (filteredPure df dc y) := by
  by_cases hs : truthyS dc = true
  · by_cases hi : truthyI y = true
    · simp [applyFilters, filteredPure, hs, hi, hdc hs, hy hi, filterEq]
    · simp [applyFilters, filteredPure, hs, hi, hdc hs]
  · by_cases hi : truthyI y = true
    · simp [applyFilters, filteredPure, hs, hi, hy hi]
    · simp [applyFilters, filteredPure, hs, hi]

/-- The filters never change the column list. -/
theorem filteredPure_cols (df : Frame) (dc : Option String) (y : Option Int) :
    (filteredPure df dc y).cols = df.cols := by
  unfold filteredPure
  by_cases hs : truthyS dc = true
  · by_cases hi : truthyI y = true
    · simp [hs, hi, filterEq]
    · simp [hs, hi, filterEq]
  · by_cases hi : truthyI y = true
    · simp [hs, hi, filterEq]
    · simp [hs, hi]

/-- C7: `calculate_crime_rate` is a pure total function: a zero population
returns the explicit sentinel `0`, a positive population returns
`total / population * 1000`, and `crime_rate(2000, 1000000) = 2`. -/
theorem crime_rate_spec :
    (∀ x : Int, calculate_crime_rate x 0 = 0) ∧
    (∀ x p : Int, 0 < p → calculate_crime_rate x p = (x : ℚ) / (p : ℚ) * 1000) ∧
    calculate_crime_rate 2000 1000000 = 2 := by
  refine ⟨fun x => ?_, fun x p hp => ?_, by decide⟩
  · rw [calculate_crime_rate, if_pos rfl]
  · rw [calculate_crime_rate, if_neg (by omega : ¬ p = 0), qmul_eq, qdiv_eq]

theorem crime_rate_spec_witness :
    (0 : ℤ) < 1000000 ∧ calculate_crime_rate 2000 1000000 = (2000 : ℚ) / (1000000 : ℚ) * 1000 :=
  ⟨by decide, crime_rate_spec.2.1 2000 1000000 (by decide)⟩

/-- C10: the optional filters test truthiness, not presence — year `0` and
the empty-string territory code behave exactly like omitting the filter. -/
theorem filter_truthiness_spec :
    (∀ df dc, get_crime_types_distribution df dc (some 0) = get_crime_types_distribution df dc none) ∧
    (∀ df y, get_crime_types_distribution df (some "") y = get_crime_types_distribution df none y) ∧
    (∀ df n, get_top_departments df n (some 0) = get_top_departments df n none) ∧
    (∀ df, get_temporal_evolution df (some "") = get_temporal_evolution df none) := by
  refine ⟨fun df dc => ?_, fun df y => ?_, fun df n => ?_, fun df => ?_⟩
  · simp [get_crime_types_distribution, applyFilters, truthyI]
  · simp [get_crime_types_distribution, applyFilters, truthyS]
  · simp [get_top_departments, topSorted, truthyI]
  · simp [get_temporal_evolution, truthyS]

/-- C1 counterexample: `get_department_stats` on a frame without a count
column mutates its argument — the synthesized `faits` column is added to the
input frame in place, so its set of columns changes. -/
theorem dept_stats_mutates_counterexample : (get_department_stats c1frame).1 ≠ c1frame := by
  decide

/-- C1 (amended): the distribution and top-N operations copy their input and
never mutate it; department stats and temporal evolution leave the input
unchanged whenever the count column is already present (they mutate it by
appending the synthesized count column when it is absent). -/
theorem aggregations_no_mutation_amended :
    (∀ df dc y, (get_crime_types_distribution df dc y).1 = df) ∧
    (∀ df n y, (get_top_departments df n y).1 = df) ∧
    (∀ df, "faits" ∈ df.cols → (get_department_stats df).1 = df) ∧
    (∀ df dc, "faits" ∈ df.cols → (get_temporal_evolution df dc).1 = df) := by
  refine ⟨fun df dc y => rfl, fun df n y => rfl, fun df h => ?_, fun df dc h => ?_⟩
  · show resolveFaits df = df
    exact resolveFaits_eq_self df h
  · rw [get_temporal_evolution]
    by_cases hd : truthyS dc = true
    · rw [if_pos hd]
      by_cases hc : "code_dept" ∈ df.cols
      · rw [if_pos hc]
      · rw [if_neg hc]
    · rw [if_neg hd]
      show resolveFaits df = df
      exact resolveFaits_eq_self df h

theorem aggregations_no_mutation_witness :
    "faits" ∈ c1wframe.cols ∧ (get_department_stats c1wframe).1 = c1wframe :=
  ⟨by decide, aggregations_no_mutation_amended.2.2.1 c1wframe (by decide)⟩

/-- C3 counterexample: `get_department_stats` on a frame lacking the
territory-name column raises a `KeyError` instead of returning a result
(count-column resolution alone does not make the aggregations total). -/
theorem dept_stats_raises_counterexample :
    (get_department_stats c3frame).2 = .error "KeyError: departement" := by
  decide

/-- C3 (amended): each aggregation applies count-column resolution itself and
then succeeds whenever the columns it groups or filters on are present; it
raises a `KeyError` otherwise. -/
theorem aggregations_total_amended :
    (∀ df, "code_dept" ∈ df.cols → "departement" ∈ df.cols → "annee" ∈ df.cols →
      ∃ r, (get_department_stats df).2 = .ok r) ∧
    (∀ df dc, (truthyS dc = true → "code_dept" ∈ df.cols) → "annee" ∈ df.cols →
      ∃ r, (get_temporal_evolution df dc).2 = .ok r) ∧
    (∀ df dc y, "classe" ∈ df.cols → (truthyS dc = true → "code_dept" ∈ df.cols) →
      (truthyI y = true → "annee" ∈ df.cols) →
      ∃ r, (get_crime_types_distribution df dc y).2 = .ok r) ∧
    (∀ df n y, "code_dept" ∈ df.cols → "departement" ∈ df.cols →
      (truthyI y = true → "annee" ∈ df.cols) →
      ∃ r, (get_top_departments df n y).2 = .ok r) := by
  refine ⟨fun df h1 h2 h3 => ?_, fun df dc h1 h2 => ?_, fun df dc y h1 h2 h3 => ?_,
    fun df n y h1 h2 h3 => ?_⟩
  · refine ⟨statSorted (resolveFaits df), ?_⟩
    show (if "code_dept" ∈ (resolveFaits df).cols then _ else _) = _
    rw [if_pos (mem_resolveFaits df _ h1), if_pos (mem_resolveFaits df _ h2),
      if_pos (mem_resolveFaits df _ h3)]
  · by_cases hd : truthyS dc = true
    · have heq : (get_temporal_evolution df dc).2
          = evoCore (resolveFaits (filterEq df "code_dept" (.str (dc.getD "")))) := by
        rw [get_temporal_evolution, if_pos hd, if_pos (h1 hd)]
      rw [heq, evoCore,
        if_pos (mem_resolveFaits (filterEq df "code_dept" (.str (dc.getD ""))) _ h2)]
      exact ⟨_, rfl⟩
    · have heq : (get_temporal_evolution df dc).2 = evoCore (resolveFaits df) := by
        rw [get_temporal_evolution, if_neg hd]
      rw [heq, evoCore, if_pos (mem_resolveFaits _ _ h2)]
      exact ⟨_, rfl⟩
  · simp only [get_crime_types_distribution]
    rw [applyFilters_ok df dc y h2 h3]
    have hcl : "classe" ∈ (resolveFaits (filteredPure df dc y)).cols :=
      mem_resolveFaits _ _ (by rw [filteredPure_cols]; exact h1)
    simp only [hcl, if_true]
    exact ⟨_, rfl⟩
  · simp only [get_top_departments]
    rw [topSorted]
    by_cases hy : truthyI y = true
    · rw [if_pos hy, if_pos (h3 hy)]
      have hc1 : "code_dept" ∈ (resolveFaits (filterEq df "annee" (.num ((y.getD 0 : Int) : ℚ)))).cols :=
        mem_resolveFaits _ _ h1
      have hc2 : "departement" ∈ (resolveFaits (filterEq df "annee" (.num ((y.getD 0 : Int) : ℚ)))).cols :=
        mem_resolveFaits _ _ h2
      simp only [hc1, hc2, if_true, Except.map]
      exact ⟨_, rfl⟩
    · rw [if_neg hy]
      have hc1 : "code_dept" ∈ (resolveFaits df).cols := mem_resolveFaits _ _ h1
      have hc2 : "departement" ∈ (resolveFaits df).cols := mem_resolveFaits _ _ h2
      simp only [hc1, hc2, if_true, Except.map]
      exact ⟨_, rfl⟩

theorem aggregations_total_witness :
    ("code_dept" ∈ c3wframe.cols ∧ "departement" ∈ c3wframe.cols ∧ "annee" ∈ c3wframe.cols) ∧
    ∃ r, (get_department_stats c3wframe).2 = .ok r :=
  ⟨⟨by decide, by decide, by decide⟩,
    aggregations_total_amended.1 c3wframe (by decide) (by decide) (by decide)⟩

/-- C2: on the spec's zero-count-prior-year scenario the code computes an
evolution percentage of `+inf` for 2021 (the `pct_change` float division by
the zero prior total), not a missing value — the first year's entry is the
only missing (`nan`) one.  No exception is raised. -/
theorem evolution_zero_prior_inf :
    (get_temporal_evolution c2frame none).2 =
      .ok [⟨.num 2020, 0, .nan⟩, ⟨.num 2021, 50, .pinf⟩] := by
  decide

/-- C9: the context summarizer raises on an empty table that still has the
year column — `df['annee'].unique()` is a zero-size array and `ndarray.min()`
has no identity — instead of omitting the period fragment. -/
theorem data_summary_empty_raises :
    get_data_summary ⟨["annee"], []⟩ =
      .error "ValueError: zero-size array to reduction operation minimum which has no identity" := by
  decide

/-- Mapping a function that fixes every element is the identity. -/
theorem map_self {α : Type} (f : α → α) (l : List α) (h : ∀ x ∈ l, f x = x) :
    l.map f = l := by
  induction l with
  | nil => rfl
  | cons a t ih =>
    rw [List.map_cons, h a (List.mem_cons_self a t),
      ih (fun x hx => h x (List.mem_cons_of_mem a hx))]

/-- The rename map is idempotent: every canonical target is a fixed point. -/
theorem canonicalize_idem (s : String) : canonicalize (canonicalize s) = canonicalize s := by
  cases hf : column_mapping.find? (fun p => p.1 == s) with
  | none =>
    have h1 : canonicalize s = s := by unfold canonicalize; rw [hf]
    rw [h1]
    exact h1
  | some p =>
    have h1 : canonicalize s = p.2 := by unfold canonicalize; rw [hf]
    have hp : p ∈ column_mapping := List.mem_of_find?_eq_some hf
    have hall : ∀ q ∈ column_mapping, canonicalize q.2 = q.2 := by decide
    rw [h1, hall p hp]

/-- `to_numeric` coercion is idempotent on cells. -/
theorem toNumCell_idem (v : Option Value) : toNumCell (toNumCell v) = toNumCell v := by
  match v with
  | none => rfl
  | some (.num q) => rfl
  | some (.str s) =>
    simp only [toNumCell]
    cases parseIntStr s with
    | none => rfl
    | some i => rfl

/-- One step of the `annee`-coercion map. -/
theorem toNumRow_cons (a : String) (c : List String) (b : Option Value)
    (r : List (Option Value)) :
    toNumRow (a :: c) (b :: r) =
      (if (a == "annee") = true then toNumCell b else b) :: toNumRow c r := rfl

/-- `to_numeric` coercion of the `annee` positions is idempotent on rows. -/
theorem toNumRow_idem (c : List String) (r : List (Option Value)) :
    toNumRow c (toNumRow c r) = toNumRow c r := by
  induction c generalizing r with
  | nil => rfl
  | cons a c ih =>
    cases r with
    | nil => rfl
    | cons b r =>
      rw [toNumRow_cons, toNumRow_cons]
      by_cases ha : (a == "annee") = true
      · simp [ha, toNumCell_idem, ih]
      · simp [ha, ih]

/-- C8: normalization is idempotent — an already-canonical table is returned
unchanged, and re-normalizing any successful normalization output is the
identity on it. -/
theorem clean_idempotent :
    (∀ T : Frame, isCanonical T → clean_crime_data T = .ok T) ∧
    (∀ T U : Frame, clean_crime_data T = .ok U → clean_crime_data U = .ok U) := by
  constructor
  · rintro ⟨cols, rows⟩ ⟨hmap, hcount, hrows⟩
    simp only [clean_crime_data] at hmap hcount hrows ⊢
    rw [hmap]
    rw [if_neg (by omega : ¬ 2 ≤ cols.count "annee")]
    have hfilter : ∀ (l : List (List (Option Value))), (∀ r ∈ l, goodRow cols r = true) →
        l.filter (goodRow cols) = l := fun l h => List.filter_eq_self.mpr h
    by_cases ha : "annee" ∈ cols
    · rw [if_pos ha, map_self _ _ (fun r hr => (hrows r hr).1),
        hfilter _ (fun r hr => (hrows r hr).2)]
    · rw [if_neg ha, hfilter _ (fun r hr => (hrows r hr).2)]
  · intro T U hTU
    simp only [clean_crime_data] at hTU
    by_cases hcnt : 2 ≤ (T.cols.map canonicalize).count "annee"
    · rw [if_pos hcnt] at hTU
      cases hTU
    · rw [if_neg hcnt] at hTU
      injection hTU with hU
      subst hU
      simp only [clean_crime_data]
      set c' := T.cols.map canonicalize with hc'
      have hmap2 : c'.map canonicalize = c' := by
        rw [hc', List.map_map]
        exact List.map_congr_left (fun s _ => canonicalize_idem s)
      rw [hmap2]
      rw [if_neg hcnt]
      set rows1 := (if "annee" ∈ c' then T.rows.map (toNumRow c') else T.rows) with hrows1
      have hgood : ∀ r ∈ rows1.filter (goodRow c'), goodRow c' r = true :=
        fun r hr => List.of_mem_filter hr
      by_cases ha : "annee" ∈ c'
      · rw [if_pos ha]
        have hfix : ∀ r ∈ rows1.filter (goodRow c'), toNumRow c' r = r := by
          intro r hr
          have hr1 : r ∈ rows1 := List.mem_of_mem_filter hr
          rw [hrows1, if_pos ha] at hr1
          obtain ⟨r0, _, hr0⟩ := List.mem_map.mp hr1
          rw [← hr0, toNumRow_idem]
        rw [map_self _ _ hfix, List.filter_eq_self.mpr hgood]
      · rw [if_neg ha, List.filter_eq_self.mpr hgood]

theorem clean_idempotent_witness :
    isCanonical c8frame ∧ clean_crime_data c8frame = .ok c8frame ∧
    clean_crime_data c8raw = .ok c8frame ∧ clean_crime_data c8frame = .ok c8frame :=
  ⟨by decide, clean_idempotent.1 c8frame (by decide), by decide,
   clean_idempotent.2 c8raw c8frame (by decide)⟩

/-- Inversion: a successful `get_department_stats` result is the sorted
grouped statistics of the count-resolved frame. -/
theorem dept_stats_ok_inv (df : Frame) (r : List StatRow)
    (h : (get_department_stats df).2 = .ok r) : r = statSorted (resolveFaits df) := by
  by_cases h1 : "code_dept" ∈ (resolveFaits df).cols
  · by_cases h2 : "departement" ∈ (resolveFaits df).cols
    · by_cases h3 : "annee" ∈ (resolveFaits df).cols
      · have heq : (get_department_stats df).2 = .ok (statSorted (resolveFaits df)) := by
          show (if "code_dept" ∈ (resolveFaits df).cols then _ else _) = _
          rw [if_pos h1, if_pos h2, if_pos h3]
        rw [heq] at h
        injection h with h
        exact h.symm
      · have heq : (get_department_stats df).2 = .error "KeyError: annee" := by
          show (if "code_dept" ∈ (resolveFaits df).cols then _ else _) = _
          rw [if_pos h1, if_pos h2, if_neg h3]
        rw [heq] at h
        cases h
    · have heq : (get_department_stats df).2 = .error "KeyError: departement" := by
        show (if "code_dept" ∈ (resolveFaits df).cols then _ else _) = _
        rw [if_pos h1, if_neg h2]
      rw [heq] at h
      cases h
  · have heq : (get_department_stats df).2 = .error "KeyError: code_dept" := by
      show (if "code_dept" ∈ (resolveFaits df).cols then _ else _) = _
      rw [if_neg h1]
    rw [heq] at h
    cases h

/-- Summing the per-group totals of the sorted statistics recovers the whole
resolved count column, provided every row carries a complete grouping key. -/
theorem statSorted_sum (df' : Frame)
    (hall : ∀ row ∈ df'.rows, (pairKey df'.cols row).isSome = true) :
    ((statSorted df').map StatRow.total_faits).sum = faitsColSum df' := by
  unfold statSorted faitsColSum
  rw [qsum_eq]
  rw [((List.perm_insertionSort statDesc
    ((pairKeys df').map (fun k =>
      (⟨k.1, k.2, groupFaitsSum df' k, groupAnneeCount df' k⟩ : StatRow)))).map
        StatRow.total_faits).sum_eq]
  rw [List.map_map]
  have hcongr : (pairKeys df').map (StatRow.total_faits ∘ (fun k =>
        (⟨k.1, k.2, groupFaitsSum df' k, groupAnneeCount df' k⟩ : StatRow)))
      = (pairKeys df').map (fun k =>
          ((df'.rows.filter (fun row => pairKey df'.cols row = some k)).map
            (fun row => numOr0 (cellV df'.cols row "faits"))).sum) := by
    apply List.map_congr_left
    intro k _
    show groupFaitsSum df' k = _
    rw [groupFaitsSum, qsum_eq]
  rw [hcongr]
  apply sum_partition (fun row => pairKey df'.cols row)
    (fun row => numOr0 (cellV df'.cols row "faits"))
  · exact (List.perm_insertionSort _ _).nodup_iff.mpr (List.nodup_dedup _)
  · intro row hrow
    obtain ⟨k, hkey⟩ := Option.isSome_iff_exists.mp (hall row hrow)
    refine ⟨k, hkey, ?_⟩
    rw [pairKeys]
    apply (List.perm_insertionSort _ _).mem_iff.mpr
    rw [List.mem_dedup]
    exact List.mem_filterMap.mpr ⟨row, hrow, hkey⟩

/-- C5 (amended): department statistics conserve count mass — the sum of the
output totals equals the sum of the resolved count column — whenever every
row of the resolved table has a non-missing territory code and name (rows
with a missing grouping key are dropped by `groupby` together with their
counts). -/
theorem dept_stats_sum_conservation (df : Frame) (r : List StatRow)
    (hok : (get_department_stats df).2 = .ok r)
    (hall : ∀ row ∈ (resolveFaits df).rows, (pairKey (resolveFaits df).cols row).isSome = true) :
    (r.map StatRow.total_faits).sum = faitsColSum (resolveFaits df) := by
  rw [dept_stats_ok_inv df r hok]
  exact statSorted_sum (resolveFaits df) hall

theorem dept_stats_sum_conservation_witness :
    ((get_department_stats c5wframe).2 =
      .ok [⟨.str "75", .str "Paris", 12, 2⟩, ⟨.str "13", .str "Mars", 5, 1⟩]) ∧
    (∀ row ∈ (resolveFaits c5wframe).rows,
      (pairKey (resolveFaits c5wframe).cols row).isSome = true) ∧
    (([⟨.str "75", .str "Paris", 12, 2⟩, ⟨.str "13", .str "Mars", 5, 1⟩] :
        List StatRow).map StatRow.total_faits).sum = faitsColSum (resolveFaits c5wframe) :=
  ⟨by decide, by decide,
    dept_stats_sum_conservation c5wframe _ (by decide) (by decide)⟩

/-- C5 counterexample: a row whose territory name is missing is dropped by
the grouping, so its count mass vanishes from the statistics — the output
total is `10` while the resolved count column sums to `15`. -/
theorem dept_stats_loses_mass_counterexample :
    (get_department_stats c5frame).2 = .ok [⟨.str "75", .str "Paris", 10, 1⟩] ∧
    (([⟨.str "75", .str "Paris", 10, 1⟩] : List StatRow).map StatRow.total_faits).sum = 10 ∧
    faitsColSum (resolveFaits c5frame) = 15 ∧ (10 : ℚ) ≠ 15 := by
  refine ⟨by decide, by simp, by decide, by norm_num⟩

/-- Inversion: a successful `get_top_departments` result is a truncation of
the full sorted ranking. -/
theorem top_ok_inv (df : Frame) (n : ℕ) (y : Option Int) (r : List TopRow)
    (h : (get_top_departments df n y).2 = .ok r) :
    ∃ l, topSorted df y = .ok l ∧ r = l.take n := by
  have h2 : (topSorted df y).map (fun l => l.take n) = .ok r := h
  cases hts : topSorted df y with
  | error e => rw [hts] at h2; cases h2
  | ok l =>
    rw [hts] at h2
    refine ⟨l, rfl, ?_⟩
    injection h2 with h2
    exact h2.symm

/-- C6: `get_top_departments` returns at most `n` rows; its result is a
prefix of the result for `n + 1`; and when the full ranking has at most `n`
groups, all of them are returned. -/
theorem top_take_spec (df : Frame) (y : Option Int) (n : ℕ) (r r' : List TopRow)
    (h : (get_top_departments df n y).2 = .ok r)
    (h' : (get_top_departments df (n + 1) y).2 = .ok r') :
    r.length ≤ n ∧ (∃ t, r ++ t = r') ∧
      (∀ l, topSorted df y = .ok l → l.length ≤ n → r = l) := by
  obtain ⟨l, hl, hr⟩ := top_ok_inv df n y r h
  obtain ⟨l', hl', hr'⟩ := top_ok_inv df (n + 1) y r' h'
  rw [hl] at hl'
  injection hl' with hll
  subst hll
  refine ⟨?_, ⟨(l.drop n).take 1, ?_⟩, ?_⟩
  · rw [hr, List.length_take]
    exact min_le_left _ _
  · rw [hr, hr']
    exact (List.take_add l n 1).symm
  · intro l0 hl0 hlen
    rw [hl] at hl0
    injection hl0 with hl0
    subst hl0
    rw [hr, List.take_of_length_le hlen]

theorem top_take_spec_witness :
    ((get_top_departments c6frame 1 none).2 = .ok [⟨.str "13", .str "Mars", 9⟩]) ∧
    ((get_top_departments c6frame 2 none).2 =
      .ok [⟨.str "13", .str "Mars", 9⟩, ⟨.str "69", .str "Lyon", 7⟩]) ∧
    ([⟨.str "13", .str "Mars", 9⟩] : List TopRow).length ≤ 1 ∧
    (∃ t, ([⟨.str "13", .str "Mars", 9⟩] : List TopRow) ++ t =
      [⟨.str "13", .str "Mars", 9⟩, ⟨.str "69", .str "Lyon", 7⟩]) ∧
    (∀ l, topSorted c6frame none = .ok l → l.length ≤ 1 →
      ([⟨.str "13", .str "Mars", 9⟩] : List TopRow) = l) :=
  ⟨by decide, by decide,
    (top_take_spec c6frame none 1 [⟨.str "13", .str "Mars", 9⟩]
      [⟨.str "13", .str "Mars", 9⟩, ⟨.str "69", .str "Lyon", 7⟩]
      (by decide) (by decide)).1,
    (top_take_spec c6frame none 1 [⟨.str "13", .str "Mars", 9⟩]
      [⟨.str "13", .str "Mars", 9⟩, ⟨.str "69", .str "Lyon", 7⟩]
      (by decide) (by decide)).2.1,
    (top_take_spec c6frame none 1 [⟨.str "13", .str "Mars", 9⟩]
      [⟨.str "13", .str "Mars", 9⟩, ⟨.str "69", .str "Lyon", 7⟩]
      (by decide) (by decide)).2.2⟩

/-- Inversion: a successful distribution is the sorted percentage table of
the count-resolved filtered copy. -/
theorem dist_ok_inv (df : Frame) (dc : Option String) (y : Option Int) (res : List DistRow)
    (h : (get_crime_types_distribution df dc y).2 = .ok res) :
    ∃ f2, applyFilters df dc y = .ok f2 ∧ "classe" ∈ (resolveFaits f2).cols ∧
      res = distSorted (resolveFaits f2) := by
  have h2 : (match applyFilters df dc y with
    | .error e => .error e
    | .ok f2 =>
      if "classe" ∈ (resolveFaits f2).cols then .ok (distSorted (resolveFaits f2))
      else .error "KeyError: classe" : Except String (List DistRow)) = .ok res := h
  cases happ : applyFilters df dc y with
  | error e =>
    rw [happ] at h2
    cases h2
  | ok f2 =>
    rw [happ] at h2
    have h3 : (match (Except.ok f2 : Except String Frame) with
      | .error e => .error e
      | .ok f2 =>
        if "classe" ∈ (resolveFaits f2).cols then .ok (distSorted (resolveFaits f2))
        else .error "KeyError: classe" : Except String (List DistRow)) =
        (if "classe" ∈ (resolveFaits f2).cols then .ok (distSorted (resolveFaits f2))
          else .error "KeyError: classe") := rfl
    rw [h3] at h2
    by_cases hcl : "classe" ∈ (resolveFaits f2).cols
    · rw [if_pos hcl] at h2
      injection h2 with h2
      exact ⟨f2, rfl, hcl, h2.symm⟩
    · rw [if_neg hcl] at h2
      cases h2

/-- With a non-zero grand total each percentage is the finite rounded share. -/
theorem pctOr0_mkPct (t S : ℚ) (hS : ¬ S = 0) :
    mkPct t S = .fin (round2 (t / S * 100)) := by
  rw [mkPct, if_neg hS, qmul_eq, qdiv_eq]

/-- A distribution with no surviving rows is empty. -/
theorem distSorted_nil (f3 : Frame) (h : f3.rows = []) : distSorted f3 = [] := by
  unfold distSorted distGroups keyVals
  rw [h]
  rfl

/-- C4 (amended): the category distribution is sorted descending by total;
whenever the grand total of the result is non-zero every percentage is a
finite rounded share and the percentages sum to 100 within the rounding
tolerance of `1/200` per category; and an empty filtered table yields an
empty result without error.  (When the filtered table is non-empty but its
total count is zero, the percentages are float `0/0 = nan` instead.) -/
theorem dist_pct_spec :
    (∀ df dc y res, (get_crime_types_distribution df dc y).2 = .ok res →
      res.Sorted distDesc) ∧
    (∀ df dc y res, (get_crime_types_distribution df dc y).2 = .ok res →
      qsum (res.map DistRow.total) ≠ 0 →
      (∀ row ∈ res, ∃ q, row.pourcentage = .fin q) ∧
      |(res.map (fun row => pctOr0 row.pourcentage)).sum - 100| ≤ res.length * (1/200)) ∧
    (∀ df dc y f2, applyFilters df dc y = .ok f2 → f2.rows = [] →
      "classe" ∈ (resolveFaits f2).cols →
      (get_crime_types_distribution df dc y).2 = .ok []) := by
  refine ⟨fun df dc y res h => ?_, fun df dc y res h hS => ?_, fun df dc y f2 h hrows hcl => ?_⟩
  · obtain ⟨f2, _, _, hres⟩ := dist_ok_inv df dc y res h
    rw [hres]
    exact List.sorted_insertionSort distDesc _
  · obtain ⟨f2, _, _, hres⟩ := dist_ok_inv df dc y res h
    set f3 := resolveFaits f2 with hf3
    set S0 := qsum ((distGroups f3).map (fun g => g.2)) with hS0
    have hperm : List.Perm (distSorted f3)
        ((distGroups f3).map (fun g => (⟨g.1, g.2, mkPct g.2 S0⟩ : DistRow))) :=
      List.perm_insertionSort _ _
    have hsum_tot : qsum (res.map DistRow.total) = S0 := by
      rw [hres, qsum_eq, (hperm.map DistRow.total).sum_eq, List.map_map, hS0, qsum_eq]
      rfl
    have hS0ne : ¬ S0 = 0 := by
      rw [← hsum_tot]
      exact hS
    constructor
    · intro row hrow
      rw [hres] at hrow
      have hrow2 := hperm.mem_iff.mp hrow
      obtain ⟨g, _, hg⟩ := List.mem_map.mp hrow2
      refine ⟨round2 (g.2 / S0 * 100), ?_⟩
      rw [← hg]
      show mkPct g.2 S0 = _
      rw [pctOr0_mkPct g.2 S0 hS0ne]
    · have hmaps : (res.map (fun row => pctOr0 row.pourcentage)).sum
          = (((distGroups f3).map (fun g => g.2)).map (fun t => round2 (t / S0 * 100))).sum := by
        rw [hres, (hperm.map (fun row => pctOr0 row.pourcentage)).sum_eq,
          List.map_map, List.map_map]
        congr 1
        apply List.map_congr_left
        intro g _
        show pctOr0 (mkPct g.2 S0) = round2 (g.2 / S0 * 100)
        rw [pctOr0_mkPct g.2 S0 hS0ne]
        rfl
      have hlen : res.length = ((distGroups f3).map (fun g => g.2)).length := by
        rw [hres, hperm.length_eq, List.length_map, List.length_map]
      have hsum_groups : ((distGroups f3).map (fun g => g.2)).sum = S0 := by
        rw [hS0, qsum_eq]
      have hbound := round_sum_bound S0 ((distGroups f3).map (fun g => g.2))
      rw [hsum_groups, div_self hS0ne, one_mul] at hbound
      rw [hmaps, hlen]
      exact hbound
  · have h2 : (get_crime_types_distribution df dc y).2 = (match applyFilters df dc y with
      | .error e => .error e
      | .ok f2 =>
        if "classe" ∈ (resolveFaits f2).cols then .ok (distSorted (resolveFaits f2))
        else .error "KeyError: classe" : Except String (List DistRow)) := rfl
    rw [h2, h]
    have h3 : (match (Except.ok f2 : Except String Frame) with
      | .error e => .error e
      | .ok f2 =>
        if "classe" ∈ (resolveFaits f2).cols then .ok (distSorted (resolveFaits f2))
        else .error "KeyError: classe" : Except String (List DistRow)) =
        (if "classe" ∈ (resolveFaits f2).cols then .ok (distSorted (resolveFaits f2))
          else .error "KeyError: classe") := rfl
    rw [h3, if_pos hcl, distSorted_nil _ (resolveFaits_rows_nil f2 hrows)]

theorem dist_pct_spec_witness :
    ((get_crime_types_distribution c4frame none none).2 =
      .ok [⟨.str "B", 70, .fin 70⟩, ⟨.str "A", 30, .fin 30⟩]) ∧
    ([⟨.str "B", 70, .fin 70⟩, ⟨.str "A", 30, .fin 30⟩] : List DistRow).Sorted distDesc ∧
    (qsum (([⟨.str "B", 70, .fin 70⟩, ⟨.str "A", 30, .fin 30⟩] : List DistRow).map
      DistRow.total) ≠ 0) ∧
    (∀ row ∈ ([⟨.str "B", 70, .fin 70⟩, ⟨.str "A", 30, .fin 30⟩] : List DistRow),
      ∃ q, row.pourcentage = .fin q) ∧
    (applyFilters c4eframe none none = .ok c4eframe) ∧
    ((get_crime_types_distribution c4eframe none none).2 = .ok []) :=
  ⟨by decide,
    dist_pct_spec.1 c4frame none none _ (by decide),
    by decide,
    (dist_pct_spec.2.1 c4frame none none
      [⟨.str "B", 70, .fin 70⟩, ⟨.str "A", 30, .fin 30⟩] (by decide) (by decide)).1,
    by decide,
    dist_pct_spec.2.2 c4eframe none none c4eframe (by decide) (by decide) (by decide)⟩

/-- C4 counterexample: a non-empty table whose counts are all zero produces a
`nan` percentage (`0/0` in float), so the percentages do not sum to
approximately 100. -/
theorem dist_pct_nan_counterexample :
    (get_crime_types_distribution c4zframe none none).2 = .ok [⟨.str "A", 0, .nan⟩] ∧
    c4zframe.rows ≠ [] :=
  ⟨by decide, by decide⟩
